import Mathlib

/-!
Verification of the nuPython front end: a shallow embedding of the lexical
scanner (src/unnamed/part_001, the completed scanner.c) and of the
recursive-descent parser (src/Parser/parser.c), together with theorems that
settle the spec's claims about them.

The input stream is modelled as a `List Char` (end of stream = empty list);
`ungetc` is modelled by returning the pushed-back character at the head of the
remaining input.  The mutable line/column cursor is threaded explicitly.
-/

/-- Token kinds, from token.h as used by scanner.c and parser.c.
`noTokenId` is the "no token" sentinel the token-queue spec requires for
lookahead past the end of the queue. -/
inductive TokenID where
  | nuPy_EOS
  | nuPy_UNKNOWN
  | nuPy_IDENTIFIER
  | nuPy_INT_LITERAL
  | nuPy_REAL_LITERAL
  | nuPy_STR_LITERAL
  | nuPy_KEYW_AND
  | nuPy_KEYW_BREAK
  | nuPy_KEYW_CONTINUE
  | nuPy_KEYW_DEF
  | nuPy_KEYW_ELIF
  | nuPy_KEYW_ELSE
  | nuPy_KEYW_FALSE
  | nuPy_KEYW_FOR
  | nuPy_KEYW_IF
  | nuPy_KEYW_IN
  | nuPy_KEYW_IS
  | nuPy_KEYW_NONE
  | nuPy_KEYW_NOT
  | nuPy_KEYW_OR
  | nuPy_KEYW_PASS
  | nuPy_KEYW_RETURN
  | nuPy_KEYW_TRUE
  | nuPy_KEYW_WHILE
  | nuPy_LEFT_PAREN
  | nuPy_RIGHT_PAREN
  | nuPy_LEFT_BRACKET
  | nuPy_RIGHT_BRACKET
  | nuPy_LEFT_BRACE
  | nuPy_RIGHT_BRACE
  | nuPy_COLON
  | nuPy_AMPERSAND
  | nuPy_ASTERISK
  | nuPy_POWER
  | nuPy_PLUS
  | nuPy_MINUS
  | nuPy_SLASH
  | nuPy_PERCENT
  | nuPy_EQUAL
  | nuPy_EQUALEQUAL
  | nuPy_NOTEQUAL
  | nuPy_LT
  | nuPy_LTE
  | nuPy_GT
  | nuPy_GTE
  | nuPy_EOLN
  | noTokenId
  deriving DecidableEq

/-- struct Token: kind plus 1-based source position. -/
structure Tok where
  id : TokenID
  line : Nat
  col : Nat
  deriving DecidableEq

/-- C `isdigit` in the ASCII range used by the scanner. -/
def cIsDigit (c : Char) : Bool := '0' ≤ c && c ≤ '9'

/-- C `isalpha` in the ASCII range used by the scanner. -/
def cIsAlpha (c : Char) : Bool := ('a' ≤ c && c ≤ 'z') || ('A' ≤ c && c ≤ 'Z')

/-- C `isalnum(c) || c == '_'`: the loop condition of `collect_identifier`. -/
def cIsIdentChar (c : Char) : Bool := cIsAlpha c || cIsDigit c || c = '_'

/-- C `isspace`: space, tab, newline, vertical tab, form feed, carriage return. -/
def cIsSpace (c : Char) : Bool :=
  c = ' ' || c = '\t' || c = '\n' || c = '\x0b' || c = '\x0c' || c = '\r'

/-- The keyword table of scanner_nextToken: the collected identifier text is
compared (case-sensitively) against the 18 keywords and reclassified. -/
def keywordId (s : String) : TokenID :=
  if s = "and" then .nuPy_KEYW_AND
  else if s = "break" then .nuPy_KEYW_BREAK
  else if s = "continue" then .nuPy_KEYW_CONTINUE
  else if s = "def" then .nuPy_KEYW_DEF
  else if s = "elif" then .nuPy_KEYW_ELIF
  else if s = "else" then .nuPy_KEYW_ELSE
  else if s = "False" then .nuPy_KEYW_FALSE
  else if s = "for" then .nuPy_KEYW_FOR
  else if s = "if" then .nuPy_KEYW_IF
  else if s = "in" then .nuPy_KEYW_IN
  else if s = "is" then .nuPy_KEYW_IS
  else if s = "None" then .nuPy_KEYW_NONE
  else if s = "not" then .nuPy_KEYW_NOT
  else if s = "or" then .nuPy_KEYW_OR
  else if s = "pass" then .nuPy_KEYW_PASS
  else if s = "return" then .nuPy_KEYW_RETURN
  else if s = "True" then .nuPy_KEYW_TRUE
  else if s = "while" then .nuPy_KEYW_WHILE
  else .nuPy_IDENTIFIER

/-- collect_string_literal: given the opening quote `start` at column `col0` of
line `line`, consume characters until the same quote recurs (consumed, column
advanced) or a mismatched quote / newline / end of stream is met (warning at
`(line, col0)`, offending character pushed back).  Returns the collected
characters, the remaining input, the updated column, and the warnings. -/
def collect_string_literal (start : Char) (line col0 : Nat) :
    List Char → Nat → List Char × List Char × Nat × List (Nat × Nat)
  | [], col => ([], [], col, [(line, col0)])
  | c :: r, col =>
    if c = '\n' then ([], c :: r, col, [(line, col0)])
    else if c = start then ([], r, col + 1, [])
    else if c = '\'' || c = '"' then ([], c :: r, col, [(line, col0)])
    else
      let res0 := collect_string_literal start line col0 r (col + 1)
      (c :: res0.1, res0.2.1, res0.2.2.1, res0.2.2.2)

/-- collect_int_or_real_literal: starting at a digit, collect digits; if a `.`
follows, collect it and the digits after it (a real literal); the first
non-matching character is pushed back.  Returns the collected characters, the
remaining input, and whether the literal is real. -/
def collect_int_or_real_literal (s : List Char) : List Char × List Char × Bool :=
  let ds := s.takeWhile cIsDigit
  let r := s.dropWhile cIsDigit
  match r with
  | '.' :: r2 =>
      (ds ++ '.' :: r2.takeWhile cIsDigit, r2.dropWhile cIsDigit, true)
  | _ => (ds, r, false)

/-- The `#` comment loop of scanner_nextToken: consume characters until a
newline or end of stream has been consumed. -/
def dropComment (r : List Char) : List Char :=
  match r.dropWhile (fun c => c ≠ '\n') with
  | [] => []
  | _ :: t => t

/-- Result of one scanner_nextToken call: the token, its text value, the
remaining input (with any pushed-back character at its head), the updated
line and column, and the lexical warnings printed (as (line, col) pairs). -/
structure ScanRes where
  tok : Tok
  value : String
  rest : List Char
  line : Nat
  col : Nat
  warns : List (Nat × Nat)
  deriving DecidableEq

/-- scanner_nextToken (src/unnamed/part_001), with the outer character loop
bounded by a fuel parameter; each loop iteration consumes at least one input
character, so `input.length + 1` fuel always suffices (see the wrapper). -/
def scanNextAux : Nat → List Char → Nat → Nat → ScanRes
  | 0, input, line, col => ⟨⟨.nuPy_EOS, line, col⟩, "$", input, line, col, []⟩
  | fuel + 1, input, line, col =>
    match input with
    | [] => ⟨⟨.nuPy_EOS, line, col⟩, "$", [], line, col, []⟩
    | c :: rest =>
      if c = '$' then ⟨⟨.nuPy_EOS, line, col⟩, "$", rest, line, col + 1, []⟩
      else if c = '\n' then scanNextAux fuel rest (line + 1) 1
      else if cIsSpace c then scanNextAux fuel rest line (col + 1)
      else if c = '(' then ⟨⟨.nuPy_LEFT_PAREN, line, col⟩, "(", rest, line, col + 1, []⟩
      else if c = ')' then ⟨⟨.nuPy_RIGHT_PAREN, line, col⟩, ")", rest, line, col + 1, []⟩
      else if cIsAlpha c || c = '_' then
        let run := (c :: rest).takeWhile cIsIdentChar
        let rem := (c :: rest).dropWhile cIsIdentChar
        ⟨⟨keywordId (String.mk run), line, col⟩, String.mk run, rem, line, col + run.length, []⟩
      else if c = '*' then
        match rest with
        | '*' :: r2 => ⟨⟨.nuPy_POWER, line, col⟩, "**", r2, line, col + 2, []⟩
        | _ => ⟨⟨.nuPy_ASTERISK, line, col⟩, "*", rest, line, col + 1, []⟩
      else if c = '+' || c = '-' then
        let sign : TokenID := if c = '+' then .nuPy_PLUS else .nuPy_MINUS
        match rest with
        | d :: r2 =>
          if cIsDigit d then
            let n := collect_int_or_real_literal (d :: r2)
            ⟨⟨(if n.2.2 then .nuPy_REAL_LITERAL else .nuPy_INT_LITERAL), line, col⟩,
             String.mk (c :: n.1), n.2.1, line, col + 1 + n.1.length, []⟩
          else
            -- the non-digit character d was consumed by fgetc and is NOT
            -- pushed back: it is discarded from the stream
            ⟨⟨sign, line, col⟩, String.mk [c], r2, line, col + 1, []⟩
        | [] => ⟨⟨sign, line, col⟩, String.mk [c], [], line, col + 1, []⟩
      else if c = '/' then ⟨⟨.nuPy_SLASH, line, col⟩, "/", rest, line, col + 1, []⟩
      else if c = '%' then ⟨⟨.nuPy_PERCENT, line, col⟩, "%", rest, line, col + 1, []⟩
      else if c = '=' then
        match rest with
        | '=' :: r2 => ⟨⟨.nuPy_EQUALEQUAL, line, col⟩, "==", r2, line, col + 2, []⟩
        | _ => ⟨⟨.nuPy_EQUAL, line, col⟩, "=", rest, line, col + 1, []⟩
      else if c = '!' then
        match rest with
        | '=' :: r2 => ⟨⟨.nuPy_NOTEQUAL, line, col⟩, "!=", r2, line, col + 2, []⟩
        | _ => ⟨⟨.nuPy_UNKNOWN, line, col⟩, "!", rest, line, col + 1, []⟩
      else if c = '<' then
        match rest with
        | '=' :: r2 => ⟨⟨.nuPy_LTE, line, col⟩, "<=", r2, line, col + 2, []⟩
        | _ => ⟨⟨.nuPy_LT, line, col⟩, "<", rest, line, col + 1, []⟩
      else if c = '>' then
        match rest with
        | '=' :: r2 => ⟨⟨.nuPy_GTE, line, col⟩, ">=", r2, line, col + 2, []⟩
        | _ => ⟨⟨.nuPy_GT, line, col⟩, ">", rest, line, col + 1, []⟩
      else if c = '&' then ⟨⟨.nuPy_AMPERSAND, line, col⟩, "&", rest, line, col + 1, []⟩
      else if c = ':' then ⟨⟨.nuPy_COLON, line, col⟩, ":", rest, line, col + 1, []⟩
      else if c = '[' then ⟨⟨.nuPy_LEFT_BRACKET, line, col⟩, "[", rest, line, col + 1, []⟩
      else if c = ']' then ⟨⟨.nuPy_RIGHT_BRACKET, line, col⟩, "]", rest, line, col + 1, []⟩
      else if c = '{' then ⟨⟨.nuPy_LEFT_BRACE, line, col⟩, "\x7b", rest, line, col + 1, []⟩
      else if c = '}' then ⟨⟨.nuPy_RIGHT_BRACE, line, col⟩, "\x7d", rest, line, col + 1, []⟩
      else if c = '\'' || c = '"' then
        -- NOTE: the column is passed to collect_string_literal without having
        -- been advanced past the opening quote, exactly as in the source
        let s := collect_string_literal c line col rest col
        ⟨⟨.nuPy_STR_LITERAL, line, col⟩, String.mk s.1, s.2.1, line, s.2.2.1, s.2.2.2⟩
      else if cIsDigit c then
        let n := collect_int_or_real_literal (c :: rest)
        ⟨⟨(if n.2.2 then .nuPy_REAL_LITERAL else .nuPy_INT_LITERAL), line, col⟩,
         String.mk n.1, n.2.1, line, col + n.1.length, []⟩
      else if c = '#' then scanNextAux fuel (dropComment rest) (line + 1) 1
      else ⟨⟨.nuPy_UNKNOWN, line, col⟩, String.mk [c], rest, line, col + 1, []⟩

/-- scanner_nextToken: total wrapper; `input.length + 1` fuel is always enough
because every iteration of the scanning loop consumes at least one character. -/
def scanner_nextToken (input : List Char) (line col : Nat) : ScanRes :=
  scanNextAux (input.length + 1) input line col

/-!
## Token queue

tokenqueue.c is not part of the repository sources; only its header is used by
parser.c.  The queue and its operations are therefore modelled from the spec
(§3, §4.2): an ordered sequence of (Token, text) pairs, FIFO, with one- and
two-token lookahead and an independent duplicate.
-/

/-- A token queue: ordered sequence of (token, lexeme text) pairs. -/
abbrev TQ : Type := List (Tok × String)

/-- Modelled from the spec: the "no token" sentinel returned by lookahead past
the end of the queue, distinguishable from every real token kind. -/
def noTok : Tok := ⟨.noTokenId, 0, 0⟩

/-- Modelled from the spec: tokenqueue_peekToken returns the head token
without removing it. -/
def tokenqueue_peekToken : TQ → Tok
  | ([] : List (Tok × String)) => noTok
  | (t, _) :: _ => t

/-- Modelled from the spec: tokenqueue_peekValue returns the head token's
text without removing it. -/
def tokenqueue_peekValue : TQ → String
  | ([] : List (Tok × String)) => ""
  | (_, v) :: _ => v

/-- Modelled from the spec: tokenqueue_peek2Token returns the second token
without removing it, or the sentinel if the queue has fewer than 2 elements. -/
def tokenqueue_peek2Token : TQ → Tok
  | (_ :: (t, _) :: _ : List (Tok × String)) => t
  | _ => noTok

/-- Modelled from the spec: tokenqueue_dequeue removes the head pair
(dequeue on an empty queue is a programmer error, never reached here). -/
def tokenqueue_dequeue : TQ → TQ
  | ([] : List (Tok × String)) => []
  | _ :: r => r

/-- Modelled from the spec: tokenqueue_duplicate returns a new queue with the
same sequence of pairs in fully independent storage; as a value it equals the
original sequence. -/
def tokenqueue_duplicate (q : TQ) : TQ := q

/-- Modelled from the spec: tokenqueue_enqueue appends a pair at the tail. -/
def tokenqueue_enqueue (q : TQ) (t : Tok) (v : String) : TQ :=
  q ++ [(t, v)]

/-!
## Parser (src/Parser/parser.c)

Diagnostics printed by the parser are modelled as values: `synErr` is
errorMsg's "**SYNTAX ERROR @ (line,col): expecting X, found 'Y'" line, and
`internalErr` is an "**INTERNAL ERROR: ..." line.  Each parsing function
returns its boolean result, the queue it leaves behind, and the list of
diagnostics it printed.
-/

/-- A diagnostic line printed by the parser. -/
inductive Diag where
  | synErr (line col : Nat) (expecting found : String)
  | internalErr (msg : String)
  deriving DecidableEq

/-- errorMsg's output format for a syntax-error diagnostic. -/
def renderDiag : Diag → String
  | .synErr line col expecting found =>
      "**SYNTAX ERROR @ (" ++ toString line ++ "," ++ toString col ++
        "): expecting " ++ expecting ++ ", found '" ++ found ++ "'"
  | .internalErr msg => "**INTERNAL ERROR: " ++ msg

/-- collect_string_literal's warning format. -/
def renderWarn (w : Nat × Nat) : String :=
  "**WARNING: string literal @ (" ++ toString w.1 ++ ", " ++ toString w.2 ++
    ") not terminated properly"

/-- Result of a non-recursive parsing function: the boolean it returns, the
queue it leaves behind, and the diagnostics it printed. -/
abbrev PR : Type := Bool × TQ × List Diag

/-- match (parser.c): if the head token's kind equals expectedID, dequeue it
and return true; otherwise print one "expecting X, found Y" diagnostic at the
head token's position and return false with the queue unchanged. -/
def matchTok (tokens : TQ) (expectedID : TokenID) (expectedValue : String) : PR :=
  let curToken := tokenqueue_peekToken tokens
  let curValue := tokenqueue_peekValue tokens
  if curToken.id = expectedID then
    (true, tokenqueue_dequeue tokens, [])
  else
    (false, tokens, [Diag.synErr curToken.line curToken.col expectedValue curValue])

/-- parser_op: accepts a binary operator by peeking only. -/
def parser_op (tokens : TQ) : PR :=
  let nextToken := tokenqueue_peekToken tokens
  if nextToken.id = .nuPy_PLUS || nextToken.id = .nuPy_MINUS ||
     nextToken.id = .nuPy_ASTERISK || nextToken.id = .nuPy_POWER ||
     nextToken.id = .nuPy_PERCENT || nextToken.id = .nuPy_SLASH ||
     nextToken.id = .nuPy_EQUALEQUAL || nextToken.id = .nuPy_NOTEQUAL ||
     nextToken.id = .nuPy_LT || nextToken.id = .nuPy_LTE ||
     nextToken.id = .nuPy_GT || nextToken.id = .nuPy_GTE ||
     nextToken.id = .nuPy_KEYW_IS || nextToken.id = .nuPy_KEYW_IN then
    (true, tokens, [])
  else
    (false, tokens, [])

/-- parser_element: accepts an element by peeking only. -/
def parser_element (tokens : TQ) : PR :=
  let nextToken := tokenqueue_peekToken tokens
  if nextToken.id = .nuPy_IDENTIFIER || nextToken.id = .nuPy_INT_LITERAL ||
     nextToken.id = .nuPy_REAL_LITERAL || nextToken.id = .nuPy_STR_LITERAL ||
     nextToken.id = .nuPy_KEYW_TRUE || nextToken.id = .nuPy_KEYW_FALSE ||
     nextToken.id = .nuPy_KEYW_NONE then
    (true, tokens, [])
  else
    (false, tokens, [])

/-- parser_unary_expr: accepts a unary expression using two tokens of
lookahead, falling back on parser_element; peeks only. -/
def parser_unary_expr (tokens : TQ) : PR :=
  let nextToken := tokenqueue_peekToken tokens
  let nextnextToken := tokenqueue_peek2Token tokens
  if (nextToken.id = .nuPy_ASTERISK && nextnextToken.id = .nuPy_IDENTIFIER) ||
     (nextToken.id = .nuPy_AMPERSAND && nextnextToken.id = .nuPy_IDENTIFIER) ||
     ((nextToken.id = .nuPy_PLUS || nextToken.id = .nuPy_MINUS) &&
      (nextnextToken.id = .nuPy_IDENTIFIER || nextnextToken.id = .nuPy_INT_LITERAL ||
       nextnextToken.id = .nuPy_REAL_LITERAL)) then
    (true, tokens, [])
  else
    parser_element tokens

/-- parser_expr: unary_expr, then optionally an operator and a second
unary_expr; built entirely from the peek-only functions above. -/
def parser_expr (tokens : TQ) : PR :=
  match parser_unary_expr tokens with
  | (false, q1, d1) => (false, q1, d1)
  | (true, q1, d1) =>
    match parser_op q1 with
    | (true, q2, d2) =>
      match parser_unary_expr q2 with
      | (false, q3, d3) => (false, q3, d1 ++ d2 ++ d3)
      | (true, q3, d3) => (true, q3, d1 ++ d2 ++ d3)
    | (false, q2, d2) => (true, q2, d1 ++ d2)

/-- parser_function_call: IDENTIFIER '(' [element] ')'.  NOTE: the optional
element is only tested with the peek-only parser_element and its result is
discarded, so no element token is ever consumed here (faithful to source). -/
def parser_function_call (tokens : TQ) : PR :=
  match matchTok tokens .nuPy_IDENTIFIER "identifier" with
  | (false, q1, d1) => (false, q1, d1)
  | (true, q1, d1) =>
    match matchTok q1 .nuPy_LEFT_PAREN "(" with
    | (false, q2, d2) => (false, q2, d1 ++ d2)
    | (true, q2, d2) =>
      -- if (parser_element(tokens)) { } : result discarded, queue untouched
      match matchTok q2 .nuPy_RIGHT_PAREN ")" with
      | (b3, q3, d3) => (b3, q3, d1 ++ d2 ++ d3)

/-- parser_value: function_call when the lookahead is IDENTIFIER '(' ,
otherwise expr. -/
def parser_value (tokens : TQ) : PR :=
  let nextToken := tokenqueue_peekToken tokens
  let nextnextToken := tokenqueue_peek2Token tokens
  if nextToken.id = .nuPy_IDENTIFIER && nextnextToken.id = .nuPy_LEFT_PAREN then
    parser_function_call tokens
  else
    parser_expr tokens

/-- parser_assignment: optional '*' (dequeued directly), IDENTIFIER, '=',
value, EOLN. -/
def parser_assignment (tokens : TQ) : PR :=
  let nextToken := tokenqueue_peekToken tokens
  let q0 := if nextToken.id = .nuPy_ASTERISK then tokenqueue_dequeue tokens else tokens
  match matchTok q0 .nuPy_IDENTIFIER "identifier" with
  | (false, q1, d1) => (false, q1, d1)
  | (true, q1, d1) =>
    match matchTok q1 .nuPy_EQUAL "=" with
    | (false, q2, d2) => (false, q2, d1 ++ d2)
    | (true, q2, d2) =>
      match parser_value q2 with
      | (false, q3, d3) => (false, q3, d1 ++ d2 ++ d3)
      | (true, q3, d3) =>
        match matchTok q3 .nuPy_EOLN "EOLN" with
        | (b4, q4, d4) => (b4, q4, d1 ++ d2 ++ d3 ++ d4)

/-- parser_call_stmt: function_call EOLN. -/
def parser_call_stmt (tokens : TQ) : PR :=
  match parser_function_call tokens with
  | (false, q1, d1) => (false, q1, d1)
  | (true, q1, d1) =>
    match matchTok q1 .nuPy_EOLN "EOLN" with
    | (b2, q2, d2) => (b2, q2, d1 ++ d2)

/-- parser_pass_stmt: pass EOLN. -/
def parser_pass_stmt (tokens : TQ) : PR :=
  match matchTok tokens .nuPy_KEYW_PASS "pass" with
  | (false, q1, d1) => (false, q1, d1)
  | (true, q1, d1) =>
    match matchTok q1 .nuPy_EOLN "EOLN" with
    | (b2, q2, d2) => (b2, q2, d1 ++ d2)

/-- parser_empty_stmt: EOLN. -/
def parser_empty_stmt (tokens : TQ) : PR :=
  matchTok tokens .nuPy_EOLN "EOLN"

/-- startOfStmt: whether the next (and possibly second) token can start a
statement. -/
def startOfStmt (tokens : TQ) : Bool :=
  let nextToken := tokenqueue_peekToken tokens
  let nextnextToken := tokenqueue_peek2Token tokens
  nextToken.id = .nuPy_IDENTIFIER ||
  (nextToken.id = .nuPy_ASTERISK && nextnextToken.id = .nuPy_IDENTIFIER) ||
  nextToken.id = .nuPy_KEYW_IF ||
  nextToken.id = .nuPy_KEYW_WHILE ||
  nextToken.id = .nuPy_KEYW_PASS ||
  nextToken.id = .nuPy_EOLN

/-- Outcome of a recursive parsing function: a normal return (`res`), falling
off the end of a non-void function with no return statement (`undef`, with the
diagnostics printed up to that point), or fuel exhaustion of the model
(`nofuel`, never reached with sufficient fuel). -/
inductive POut where
  | res (b : Bool) (q : TQ) (d : List Diag)
  | undef (d : List Diag)
  | nofuel
  deriving DecidableEq

/-- Tags for the mutually recursive grammar procedures of parser.c. -/
inductive PRule where
  | bodyR
  | elseR
  | ifThenElseR
  | whileR
  | stmtR
  | stmtsR
  deriving DecidableEq

/-- The mutually recursive grammar procedures parser_body, parser_else,
parser_if_then_else, parser_while_loop, parser_stmt and parser_stmts of
parser.c, combined into one fuel-indexed function (one unit of fuel per
nested call; the named wrappers below restore the source's names). -/
def parseRun : Nat → PRule → TQ → POut
  | 0, _, _ => .nofuel
  | fuel + 1, rule, tokens =>
    match rule with
    | .bodyR =>
      -- <body> ::= '\x7b' EOLN <stmts> '\x7d' EOLN
      match matchTok tokens .nuPy_LEFT_BRACE "\x7b" with
      | (false, q1, d1) => .res false q1 d1
      | (true, q1, d1) =>
        match matchTok q1 .nuPy_EOLN "EOLN" with
        | (false, q2, d2) => .res false q2 (d1 ++ d2)
        | (true, q2, d2) =>
          match parseRun fuel .stmtsR q2 with
          | .res false q3 d3 => .res false q3 (d1 ++ d2 ++ d3)
          | .res true q3 d3 =>
            match matchTok q3 .nuPy_RIGHT_BRACE "\x7d" with
            | (false, q4, d4) => .res false q4 (d1 ++ d2 ++ d3 ++ d4)
            | (true, q4, d4) =>
              match matchTok q4 .nuPy_EOLN "EOLN" with
              | (b5, q5, d5) => .res b5 q5 (d1 ++ d2 ++ d3 ++ d4 ++ d5)
          | .undef d3 => .undef (d1 ++ d2 ++ d3)
          | .nofuel => .nofuel
    | .elseR =>
      -- <else> ::= elif <expr> ':' EOLN <body> [<else>] | else ':' EOLN <body>
      let nextToken := tokenqueue_peekToken tokens
      let nextValue := tokenqueue_peekValue tokens
      if nextToken.id = .nuPy_KEYW_ELIF then
        let q0 := tokenqueue_dequeue tokens
        match parser_expr q0 with
        | (false, q1, d1) => .res false q1 d1
        | (true, q1, d1) =>
          match matchTok q1 .nuPy_COLON ":" with
          | (false, q2, d2) => .res false q2 (d1 ++ d2)
          | (true, q2, d2) =>
            match matchTok q2 .nuPy_EOLN "EOLN" with
            | (false, q3, d3) => .res false q3 (d1 ++ d2 ++ d3)
            | (true, q3, d3) =>
              match parseRun fuel .bodyR q3 with
              | .res false q4 d4 => .res false q4 (d1 ++ d2 ++ d3 ++ d4)
              | .res true q4 d4 =>
                let optionalelse := tokenqueue_peekToken q4
                if optionalelse.id = .nuPy_KEYW_ELSE || optionalelse.id = .nuPy_KEYW_ELIF then
                  match parseRun fuel .elseR q4 with
                  | .res b5 q5 d5 => .res b5 q5 (d1 ++ d2 ++ d3 ++ d4 ++ d5)
                  | .undef d5 => .undef (d1 ++ d2 ++ d3 ++ d4 ++ d5)
                  | .nofuel => .nofuel
                else
                  .res true q4 (d1 ++ d2 ++ d3 ++ d4)
              | .undef d4 => .undef (d1 ++ d2 ++ d3 ++ d4)
              | .nofuel => .nofuel
      else if nextToken.id = .nuPy_KEYW_ELSE then
        let q0 := tokenqueue_dequeue tokens
        match matchTok q0 .nuPy_COLON ":" with
        | (false, q1, d1) => .res false q1 d1
        | (true, q1, d1) =>
          match matchTok q1 .nuPy_EOLN "EOLN" with
          | (false, q2, d2) => .res false q2 (d1 ++ d2)
          | (true, q2, d2) =>
            match parseRun fuel .bodyR q2 with
            | .res b3 q3 d3 => .res b3 q3 (d1 ++ d2 ++ d3)
            | .undef d3 => .undef (d1 ++ d2 ++ d3)
            | .nofuel => .nofuel
      else
        .res false tokens [Diag.synErr nextToken.line nextToken.col "else or elif" nextValue]
    | .ifThenElseR =>
      -- <if_then_else> ::= if <expr> ':' EOLN <body> [<else>]
      match matchTok tokens .nuPy_KEYW_IF "if" with
      | (false, q1, d1) => .res false q1 d1
      | (true, q1, d1) =>
        match parser_expr q1 with
        | (false, q2, d2) => .res false q2 (d1 ++ d2)
        | (true, q2, d2) =>
          match matchTok q2 .nuPy_COLON ":" with
          | (false, q3, d3) => .res false q3 (d1 ++ d2 ++ d3)
          | (true, q3, d3) =>
            match matchTok q3 .nuPy_EOLN "EOLN" with
            | (false, q4, d4) => .res false q4 (d1 ++ d2 ++ d3 ++ d4)
            | (true, q4, d4) =>
              match parseRun fuel .bodyR q4 with
              | .res false q5 d5 => .res false q5 (d1 ++ d2 ++ d3 ++ d4 ++ d5)
              | .res true q5 d5 =>
                let curToken := tokenqueue_peekToken q5
                if curToken.id = .nuPy_KEYW_ELIF || curToken.id = .nuPy_KEYW_ELSE then
                  match parseRun fuel .elseR q5 with
                  | .res b6 q6 d6 => .res b6 q6 (d1 ++ d2 ++ d3 ++ d4 ++ d5 ++ d6)
                  | .undef d6 => .undef (d1 ++ d2 ++ d3 ++ d4 ++ d5 ++ d6)
                  | .nofuel => .nofuel
                else
                  .res true q5 (d1 ++ d2 ++ d3 ++ d4 ++ d5)
              | .undef d5 => .undef (d1 ++ d2 ++ d3 ++ d4 ++ d5)
              | .nofuel => .nofuel
    | .whileR =>
      -- <while_loop> ::= while <expr> ':' EOLN <body>
      match matchTok tokens .nuPy_KEYW_WHILE "while" with
      | (false, q1, d1) => .res false q1 d1
      | (true, q1, d1) =>
        match parser_expr q1 with
        | (false, q2, d2) => .res false q2 (d1 ++ d2)
        | (true, q2, d2) =>
          match matchTok q2 .nuPy_COLON ":" with
          | (false, q3, d3) => .res false q3 (d1 ++ d2 ++ d3)
          | (true, q3, d3) =>
            match matchTok q3 .nuPy_EOLN "EOLN" with
            | (false, q4, d4) => .res false q4 (d1 ++ d2 ++ d3 ++ d4)
            | (true, q4, d4) =>
              match parseRun fuel .bodyR q4 with
              | .res b5 q5 d5 => .res b5 q5 (d1 ++ d2 ++ d3 ++ d4 ++ d5)
              | .undef d5 => .undef (d1 ++ d2 ++ d3 ++ d4 ++ d5)
              | .nofuel => .nofuel
    | .stmtR =>
      -- <stmt>: predicate check, then dispatch on one or two lookahead tokens
      if ¬ startOfStmt tokens then
        let curToken := tokenqueue_peekToken tokens
        let curValue := tokenqueue_peekValue tokens
        .res false tokens [Diag.synErr curToken.line curToken.col "start of a statement" curValue]
      else
        let nextToken := tokenqueue_peekToken tokens
        let nextnextToken := tokenqueue_peek2Token tokens
        if nextToken.id = .nuPy_ASTERISK && nextnextToken.id = .nuPy_IDENTIFIER then
          match parser_assignment tokens with
          | (b, q, d) => .res b q d
        else if nextToken.id = .nuPy_IDENTIFIER then
          if nextnextToken.id = .nuPy_LEFT_PAREN then
            match parser_call_stmt tokens with
            | (b, q, d) => .res b q d
          else if nextnextToken.id = .nuPy_EQUAL then
            match parser_assignment tokens with
            | (b, q, d) => .res b q d
          else
            -- the source has no return statement on this path: control falls
            -- off the end of parser_stmt, an undefined result
            .undef []
        else if nextToken.id = .nuPy_KEYW_IF then
          parseRun fuel .ifThenElseR tokens
        else if nextToken.id = .nuPy_KEYW_WHILE then
          parseRun fuel .whileR tokens
        else if nextToken.id = .nuPy_KEYW_PASS then
          match parser_pass_stmt tokens with
          | (b, q, d) => .res b q d
        else if nextToken.id = .nuPy_EOLN then
          match parser_empty_stmt tokens with
          | (b, q, d) => .res b q d
        else
          .res false tokens [Diag.internalErr "unknown stmt (parser_stmt)"]
    | .stmtsR =>
      -- <stmts> ::= <stmt> [<stmts>]
      match parseRun fuel .stmtR tokens with
      | .res false q1 d1 => .res false q1 d1
      | .res true q1 d1 =>
        if startOfStmt q1 then
          match parseRun fuel .stmtsR q1 with
          | .res b2 q2 d2 => .res b2 q2 (d1 ++ d2)
          | .undef d2 => .undef (d1 ++ d2)
          | .nofuel => .nofuel
        else
          .res true q1 d1
      | .undef d1 => .undef d1
      | .nofuel => .nofuel

/-- parser_body, via the combined recursion. -/
def parser_body (fuel : Nat) (tokens : TQ) : POut := parseRun fuel .bodyR tokens

/-- parser_else, via the combined recursion. -/
def parser_else (fuel : Nat) (tokens : TQ) : POut := parseRun fuel .elseR tokens

/-- parser_if_then_else, via the combined recursion. -/
def parser_if_then_else (fuel : Nat) (tokens : TQ) : POut := parseRun fuel .ifThenElseR tokens

/-- parser_while_loop, via the combined recursion. -/
def parser_while_loop (fuel : Nat) (tokens : TQ) : POut := parseRun fuel .whileR tokens

/-- parser_stmt, via the combined recursion. -/
def parser_stmt (fuel : Nat) (tokens : TQ) : POut := parseRun fuel .stmtR tokens

/-- parser_stmts, via the combined recursion. -/
def parser_stmts (fuel : Nat) (tokens : TQ) : POut := parseRun fuel .stmtsR tokens

/-- parser_program: <stmts> then the end-of-stream token. -/
def parser_program (fuel : Nat) (tokens : TQ) : POut :=
  match parser_stmts fuel tokens with
  | .res false q1 d1 => .res false q1 d1
  | .res true q1 d1 =>
    match matchTok q1 .nuPy_EOS "$" with
    | (b2, q2, d2) => .res b2 q2 (d1 ++ d2)
  | .undef d1 => .undef d1
  | .nofuel => .nofuel

/-- The tokenization loop of parser_parse: call scanner_nextToken repeatedly,
enqueueing every token, until the end-of-stream token (also enqueued).  Fuel
`input.length + 1` always suffices since every token consumes input. -/
def scanLoop : Nat → List Char → Nat → Nat → TQ × List (Nat × Nat)
  | 0, _, _, _ => ([], [])
  | fuel + 1, input, line, col =>
    let r := scanner_nextToken input line col
    if r.tok.id = .nuPy_EOS then ([(r.tok, r.value)], r.warns)
    else
      let rest := scanLoop fuel r.rest r.line r.col
      ((r.tok, r.value) :: rest.1, r.warns ++ rest.2)

/-- Tokenize a whole string the way parser_parse does (scanner_init sets the
cursor to line 1, column 1), returning the full token queue ending in EOS. -/
def tokenize (s : String) : TQ :=
  (scanLoop (s.toList.length + 1) s.toList 1 1).1

/-- The lexical warnings printed while tokenizing a whole string. -/
def tokenizeWarns (s : String) : List (Nat × Nat) :=
  (scanLoop (s.toList.length + 1) s.toList 1 1).2

/-- Outcome of parser_parse: the returned duplicate queue on success, NULL
plus the printed diagnostics on failure, an undefined result if parser_stmt
fell off the end of the function, or model fuel exhaustion (never reached). -/
inductive ParseOutcome where
  | success (queue : TQ) (d : List Diag)
  | failure (d : List Diag)
  | undefB (d : List Diag)
  | nofuelO
  deriving DecidableEq

/-- Fuel that always suffices for parser_program: the recursion nesting depth
is bounded by the queue length. -/
def parserFuel (q : TQ) : Nat := 4 * q.length + 8

/-- parser_parse: tokenize the entire input into a queue, duplicate it, run
the grammar against the original, and return the duplicate on success or the
failure signal (NULL) otherwise. -/
def parser_parse (input : String) : ParseOutcome :=
  let scanned := tokenize input
  let dup := tokenqueue_duplicate scanned
  match parser_program (parserFuel scanned) scanned with
  | .res true _ d => .success dup d
  | .res false _ d => .failure d
  | .undef d => .undefB d
  | .nofuel => .nofuelO

/-!
## Structural lemmas about the parsing functions
-/

/-- matchTok either succeeds, dequeueing the head and printing nothing, or
fails leaving the queue unchanged and printing exactly one diagnostic. -/
theorem matchTok_cases (q : TQ) (e : TokenID) (l : String) :
    matchTok q e l = (true, tokenqueue_dequeue q, []) ∨
    ∃ dg, matchTok q e l = (false, q, [dg]) := by
  unfold matchTok
  dsimp only
  split
  · exact Or.inl rfl
  · exact Or.inr ⟨_, rfl⟩

/-- parser_op only peeks: the queue comes back unchanged, no diagnostics. -/
theorem parser_op_shape (q : TQ) : ∃ b, parser_op q = (b, q, []) := by
  unfold parser_op
  dsimp only
  split
  · exact ⟨true, rfl⟩
  · exact ⟨false, rfl⟩

/-- parser_element only peeks: the queue comes back unchanged, no diagnostics. -/
theorem parser_element_shape (q : TQ) : ∃ b, parser_element q = (b, q, []) := by
  unfold parser_element
  dsimp only
  split
  · exact ⟨true, rfl⟩
  · exact ⟨false, rfl⟩

/-- parser_unary_expr only peeks: the queue comes back unchanged, no
diagnostics. -/
theorem parser_unary_expr_shape (q : TQ) : ∃ b, parser_unary_expr q = (b, q, []) := by
  unfold parser_unary_expr
  dsimp only
  split
  · exact ⟨true, rfl⟩
  · exact parser_element_shape q

/-- parser_expr only peeks: the queue comes back unchanged, no diagnostics. -/
theorem parser_expr_shape (q : TQ) : ∃ b, parser_expr q = (b, q, []) := by
  unfold parser_expr
  obtain ⟨b1, h1⟩ := parser_unary_expr_shape q
  rw [h1]
  cases b1 with
  | false => exact ⟨false, rfl⟩
  | true =>
    dsimp only
    obtain ⟨b2, h2⟩ := parser_op_shape q
    rw [h2]
    cases b2 with
    | false => exact ⟨true, by simp⟩
    | true =>
      dsimp only
      obtain ⟨b3, h3⟩ := parser_unary_expr_shape q
      rw [h3]
      cases b3 with
      | false => exact ⟨false, by simp⟩
      | true => exact ⟨true, by simp⟩

/-!
## Claim theorems
-/

/-- C1: the spec claims parsing "pass\n" succeeds and returns the token queue;
on the code, the scanner never produces an EOLN token (a newline only advances
the line counter), so parser_pass_stmt's match of EOLN hits the end-of-stream
token instead: the parse fails with the single diagnostic
"expecting EOLN, found '$'" at (2,1) and parser_parse returns NULL. -/
theorem c1_parse_pass_fails :
    tokenize "pass\n" =
      [(⟨.nuPy_KEYW_PASS, 1, 1⟩, "pass"), (⟨.nuPy_EOS, 2, 1⟩, "$")] ∧
    parser_parse "pass\n" = .failure [Diag.synErr 2 1 "EOLN" "$"] := by
  constructor
  · decide
  · decide

/-- C2 (counterexample): a parse that fails inside the expression rules prints
no diagnostic at all: parsing "x=)" fails (parser_value's parser_expr rejects
')' silently and parser_assignment propagates the failure), yet the diagnostic
list is empty — refuting "exactly one diagnostic line" and "no failing parse
emits zero diagnostics". -/
theorem c2_zero_diag_failure : parser_parse "x=)" = .failure [] := by decide

/-- C3: the expression-parsing procedures parser_op, parser_element,
parser_unary_expr and parser_expr never dequeue: for every queue state the
queue contents after a call equal the contents before (and no diagnostics are
printed), so even an accepted expression leaves all of its tokens on the
queue. -/
theorem c3_expr_rules_preserve_queue (q : TQ) :
    (parser_op q).2.1 = q ∧ (parser_element q).2.1 = q ∧
    (parser_unary_expr q).2.1 = q ∧ (parser_expr q).2.1 = q := by
  obtain ⟨b1, h1⟩ := parser_op_shape q
  obtain ⟨b2, h2⟩ := parser_element_shape q
  obtain ⟨b3, h3⟩ := parser_unary_expr_shape q
  obtain ⟨b4, h4⟩ := parser_expr_shape q
  rw [h1, h2, h3, h4]
  exact ⟨rfl, rfl, rfl, rfl⟩

/-- C4 (counterexample): tokenizing "x = 1\n" does not yield five tokens with
a newline token among them: the scanner emits four tokens and no token of the
newline (EOLN) kind. -/
theorem c4_no_newline_token :
    (tokenize "x = 1\n").length ≠ 5 ∧
    ((tokenize "x = 1\n").all fun p => !(p.1.id = TokenID.nuPy_EOLN)) = true := by
  constructor
  · decide
  · decide

/-- C4 (amended): tokenizing "x = 1\n" yields exactly four tokens —
identifier("x") at (1,1), '=' at (1,3), integer("1") at (1,5), and
end-of-stream at (2,1); the newline produces no token, it only advances the
line counter. -/
theorem c4_tokenize_actual :
    tokenize "x = 1\n" =
      [(⟨.nuPy_IDENTIFIER, 1, 1⟩, "x"), (⟨.nuPy_EQUAL, 1, 3⟩, "="),
       (⟨.nuPy_INT_LITERAL, 1, 5⟩, "1"), (⟨.nuPy_EOS, 2, 1⟩, "$")] := by decide

/-- C5: match(tokens, expectedID, expectedValue) dequeues the head token and
returns success exactly when the head token's kind equals expectedID;
otherwise it leaves the queue unchanged, emits one "expecting <label>, found
<headText>" diagnostic carrying the head token's line and column, and returns
failure. -/
theorem c5_match_spec (t : Tok) (v : String) (rest : TQ) (e : TokenID) (lbl : String) :
    (t.id = e → matchTok ((t, v) :: rest) e lbl = (true, rest, [])) ∧
    (t.id ≠ e → matchTok ((t, v) :: rest) e lbl =
        (false, (t, v) :: rest, [Diag.synErr t.line t.col lbl v])) := by
  constructor
  · intro h
    simp [matchTok, tokenqueue_peekToken, tokenqueue_peekValue, tokenqueue_dequeue, h]
  · intro h
    simp [matchTok, tokenqueue_peekToken, tokenqueue_peekValue, h]

/-- C5 witness: both halves of c5_match_spec at concrete queues. -/
theorem c5_match_spec_witness :
    matchTok [(⟨.nuPy_KEYW_PASS, 1, 1⟩, "pass"), (⟨.nuPy_EOS, 2, 1⟩, "$")]
        .nuPy_KEYW_PASS "pass" = (true, [(⟨.nuPy_EOS, 2, 1⟩, "$")], []) ∧
    matchTok [(⟨.nuPy_EOS, 2, 1⟩, "$")] .nuPy_EOLN "EOLN" =
      (false, [(⟨.nuPy_EOS, 2, 1⟩, "$")], [Diag.synErr 2 1 "EOLN" "$"]) :=
  ⟨(c5_match_spec ⟨.nuPy_KEYW_PASS, 1, 1⟩ "pass" [(⟨.nuPy_EOS, 2, 1⟩, "$")]
      .nuPy_KEYW_PASS "pass").1 rfl,
   (c5_match_spec ⟨.nuPy_EOS, 2, 1⟩ "$" [] .nuPy_EOLN "EOLN").2 (by decide)⟩

/-- C7: the spec claims that whenever startOfStmt accepts but the dispatcher
matches no branch, parser_stmt reports an internal error and returns failure.
On the code, for an identifier followed by neither '(' nor '=' the identifier
branch of parser_stmt has no return statement: control falls off the end of a
non-void function (undefined result, nothing printed); the internal-error
branch is not reached.  Witnessed by the queue scanned from "x\n". -/
theorem c7_dispatch_falls_off :
    startOfStmt [(⟨.nuPy_IDENTIFIER, 1, 1⟩, "x"), (⟨.nuPy_EOS, 2, 1⟩, "$")] = true ∧
    parser_stmt 5 [(⟨.nuPy_IDENTIFIER, 1, 1⟩, "x"), (⟨.nuPy_EOS, 2, 1⟩, "$")] = .undef [] ∧
    parser_parse "x\n" = .undefB [] := by
  refine ⟨by decide, by decide, by decide⟩

/-- Operations that mutate a token queue: head removal and tail insertion. -/
inductive QOp where
  | deq
  | enq (t : Tok) (v : String)

/-- Apply one queue operation. -/
def applyOp (op : QOp) (q : TQ) : TQ :=
  match op with
  | .deq => tokenqueue_dequeue q
  | .enq t v => tokenqueue_enqueue q t v

/-- Dequeuing as many times as a queue has elements empties it. -/
theorem dequeue_all (q : TQ) : tokenqueue_dequeue^[q.length] q = ([] : TQ) := by
  induction q with
  | nil => rfl
  | cons x l ih =>
    rw [List.length_cons, Function.iterate_succ_apply]
    exact ih

/-- Mutating one component of an (original, duplicate) pair never changes the
other component. -/
theorem foldl_first_frame (ops : List QOp) :
    ∀ s : TQ × TQ, (ops.foldl (fun s op => (applyOp op s.1, s.2)) s).2 = s.2 := by
  induction ops with
  | nil => intro s; rfl
  | cons op rest ih => intro s; exact ih (applyOp op s.1, s.2)

/-- Mutating the duplicate component of an (original, duplicate) pair never
changes the original component. -/
theorem foldl_second_frame (ops : List QOp) :
    ∀ s : TQ × TQ, (ops.foldl (fun s op => (s.1, applyOp op s.2)) s).1 = s.1 := by
  induction ops with
  | nil => intro s; rfl
  | cons op rest ih => intro s; exact ih (s.1, applyOp op s.2)

/-- C10: duplicate() returns a new queue with the same sequence of (token,
text) pairs and the same length, in independent storage: dequeuing all N
elements from the original empties the original but leaves the duplicate's
contents (hence length) exactly as scanned, and any sequence of mutations of
either member of an (original, duplicate) pair leaves the other untouched. -/
theorem c10_duplicate_independent (q : TQ) (ops : List QOp) :
    tokenqueue_duplicate q = q ∧
    (tokenqueue_duplicate q).length = q.length ∧
    tokenqueue_dequeue^[q.length] q = ([] : TQ) ∧
    (ops.foldl (fun s op => (applyOp op s.1, s.2)) (q, tokenqueue_duplicate q)).2 =
      tokenqueue_duplicate q ∧
    (ops.foldl (fun s op => (s.1, applyOp op s.2)) (q, tokenqueue_duplicate q)).1 = q := by
  exact ⟨rfl, rfl, dequeue_all q, foldl_first_frame ops (q, tokenqueue_duplicate q),
    foldl_second_frame ops (q, tokenqueue_duplicate q)⟩

/-- C8: the '!' scan is a forced two-character construct.  If '!' is followed
by '=', the not-equal token is produced; otherwise (including '!' at end of
stream) the token kind is unrecognized — never a single-character '!' token —
and the non-matching following character is pushed back onto the stream for
the next call to reprocess. -/
theorem c8_bang_forced_pair (rest : List Char) (line col : Nat) :
    (∀ d r2, rest = d :: r2 → d ≠ '=' →
      scanner_nextToken ('!' :: rest) line col =
        ⟨⟨.nuPy_UNKNOWN, line, col⟩, "!", rest, line, col + 1, []⟩) ∧
    (rest = [] →
      scanner_nextToken ('!' :: rest) line col =
        ⟨⟨.nuPy_UNKNOWN, line, col⟩, "!", [], line, col + 1, []⟩) ∧
    (∀ r2, rest = '=' :: r2 →
      scanner_nextToken ('!' :: rest) line col =
        ⟨⟨.nuPy_NOTEQUAL, line, col⟩, "!=", r2, line, col + 2, []⟩) := by
  refine ⟨?_, ?_, ?_⟩
  · intro d r2 hrest hd
    subst hrest
    simp only [scanner_nextToken, List.length_cons, scanNextAux]
    simp [cIsSpace, cIsAlpha, cIsDigit, cIsIdentChar]
    split
    · next heq =>
        injection heq with h1 h2
        exact absurd h1 hd
    · rfl
  · intro hrest
    subst hrest
    simp only [scanner_nextToken, List.length_cons, scanNextAux]
    simp [cIsSpace, cIsAlpha, cIsDigit, cIsIdentChar]
  · intro r2 hrest
    subst hrest
    simp only [scanner_nextToken, List.length_cons, scanNextAux]
    simp [cIsSpace, cIsAlpha, cIsDigit, cIsIdentChar]

/-- C8 witness: all three parts of c8_bang_forced_pair at concrete inputs. -/
theorem c8_bang_forced_pair_witness :
    scanner_nextToken ('!' :: ['a']) 1 1 =
      ⟨⟨.nuPy_UNKNOWN, 1, 1⟩, "!", ['a'], 1, 2, []⟩ ∧
    scanner_nextToken ('!' :: []) 1 1 =
      ⟨⟨.nuPy_UNKNOWN, 1, 1⟩, "!", [], 1, 2, []⟩ ∧
    scanner_nextToken ('!' :: ['=', 'a']) 1 1 =
      ⟨⟨.nuPy_NOTEQUAL, 1, 1⟩, "!=", ['a'], 1, 3, []⟩ :=
  ⟨(c8_bang_forced_pair ['a'] 1 1).1 'a' [] rfl (by decide),
   (c8_bang_forced_pair [] 1 1).2.1 rfl,
   (c8_bang_forced_pair ['=', 'a'] 1 1).2.2 ['a'] rfl⟩

/-- C9: when '+' or '-' is followed by a non-digit character, that following
character is consumed by the lookahead fgetc and never pushed back: it is
discarded from the stream (so scanning "-x" yields a minus token and the 'x'
never appears in any later token). -/
theorem c9_sign_discards_following (c d : Char) (r2 : List Char) (line col : Nat)
    (hc : c = '+' ∨ c = '-') (hd : cIsDigit d = false) :
    scanner_nextToken (c :: d :: r2) line col =
      ⟨⟨(if c = '+' then .nuPy_PLUS else .nuPy_MINUS), line, col⟩,
        String.mk [c], r2, line, col + 1, []⟩ := by
  rcases hc with rfl | rfl <;>
    · simp only [scanner_nextToken, List.length_cons, scanNextAux]
      simp [cIsSpace, cIsAlpha, cIsIdentChar, hd]

/-- C9 witness: scanning "-x" loses the 'x' — the remaining stream after the
minus token is empty, so the next token is end-of-stream. -/
theorem c9_sign_discards_following_witness :
    scanner_nextToken ['-', 'x'] 1 1 =
      ⟨⟨.nuPy_MINUS, 1, 1⟩, "-", [], 1, 2, []⟩ :=
  c9_sign_discards_following '-' 'x' [] 1 1 (Or.inr rfl) (by decide)

/-- A string-literal content character: not a newline and not a quote of
either kind. -/
def plainChar (c : Char) : Prop := c ≠ '\n' ∧ c ≠ '\'' ∧ c ≠ '"'

instance (c : Char) : Decidable (plainChar c) := by
  unfold plainChar
  infer_instance

/-- The input continuations on which a string literal starting with quote
`start` terminates abnormally: end of stream, an end of line, or a mismatched
quote character. -/
def abnormalEnd (start : Char) : List Char → Prop
  | [] => True
  | d :: _ => d = '\n' ∨ ((d = '\'' ∨ d = '"') ∧ d ≠ start)

instance (start : Char) (l : List Char) : Decidable (abnormalEnd start l) := by
  unfold abnormalEnd
  cases l <;> infer_instance

/-- collect_string_literal on an abnormally terminated literal: the plain
content characters are collected (advancing the column per character), one
warning is emitted at the opening quote's position, and the offending
character is pushed back (the remaining input is exactly the continuation). -/
theorem collect_string_literal_abnormal (start : Char) (line col0 : Nat)
    (hs : start = '\'' ∨ start = '"') :
    ∀ (content : List Char), (∀ c ∈ content, plainChar c) →
    ∀ (rest : List Char), abnormalEnd start rest → ∀ (col : Nat),
      collect_string_literal start line col0 (content ++ rest) col =
        (content, rest, col + content.length, [(line, col0)]) := by
  intro content
  induction content with
  | nil =>
    intro _ rest hr col
    cases rest with
    | nil => simp [collect_string_literal]
    | cons d r =>
      rcases hr with hd | ⟨hq, hne⟩
      · subst hd
        simp [collect_string_literal]
      · have hds : d ≠ start := hne
        rcases hq with rfl | rfl <;>
          simp [collect_string_literal, if_neg (Ne.symm hds), hds]
  | cons c cs ih =>
    intro hplain rest hr col
    have hc : plainChar c := hplain c (List.mem_cons_self c cs)
    obtain ⟨hc1, hc2, hc3⟩ := hc
    have hcs : c ≠ start := by
      rcases hs with rfl | rfl
      · exact hc2
      · exact hc3
    have ihcs : ∀ x ∈ cs, plainChar x := fun x hx => hplain x (List.mem_cons_of_mem c hx)
    have hrec := ih ihcs rest hr (col + 1)
    simp only [List.cons_append, collect_string_literal, if_neg hc1, if_neg hcs]
    have hnq : (c = '\'' || c = '"') = false := by
      simp [hc2, hc3]
    rw [hnq]
    simp [hrec]
    omega

/-- C6 (counterexample): the claim states the warning format
"**WARNING: string literal @ (<line>,<col>) not terminated properly" with no
space after the comma, but collect_string_literal prints "@ (%d, %d)" with a
space: the one warning emitted while scanning the unterminated literal "'abc"
renders as "... @ (1, 1) ..." and not as the claimed "... @ (1,1) ...". -/
theorem c6_warning_format_space :
    (tokenizeWarns "'abc").map renderWarn =
      ["**WARNING: string literal @ (1, 1) not terminated properly"] ∧
    (tokenizeWarns "'abc").map renderWarn ≠
      ["**WARNING: string literal @ (1,1) not terminated properly"] := by
  constructor
  · decide
  · decide

/-- C6 (amended): when scanner_nextToken reads a string literal that is not
closed by the matching quote (a different quote character, end of line, or
end of stream comes first), it emits exactly one warning — the
"**WARNING: string literal @ (<line>, <col>) not terminated properly" line
(a space after the comma, see renderWarn) at the opening quote's position —
still returns a string-literal token whose text is the partial contents
collected so far, pushes the offending character back for reprocessing rather
than consuming it, and returns normally (the scan is never aborted). -/
theorem c6_unterminated_string (start : Char) (line col : Nat)
    (content rest : List Char)
    (hs : start = '\'' ∨ start = '"')
    (hcontent : ∀ c ∈ content, plainChar c)
    (hrest : abnormalEnd start rest) :
    scanner_nextToken (start :: (content ++ rest)) line col =
      ⟨⟨.nuPy_STR_LITERAL, line, col⟩, String.mk content, rest, line,
        col + content.length, [(line, col)]⟩ := by
  have hcoll := collect_string_literal_abnormal start line col hs content hcontent rest hrest col
  rcases hs with rfl | rfl <;>
    · simp only [scanner_nextToken, List.length_cons, scanNextAux]
      simp [cIsSpace, cIsAlpha, cIsIdentChar, hcoll]

/-- C6 witness: scanning "'ab" followed by a newline — one warning at (1,1),
a string-literal token with partial text "ab", and the newline pushed back. -/
theorem c6_unterminated_string_witness :
    scanner_nextToken ('\'' :: (['a', 'b'] ++ ['\n', 'x'])) 1 1 =
      ⟨⟨.nuPy_STR_LITERAL, 1, 1⟩, "ab", ['\n', 'x'], 1, 3, [(1, 1)]⟩ :=
  c6_unterminated_string '\'' 1 1 ['a', 'b'] ['\n', 'x'] (Or.inl rfl)
    (by decide) (by decide)

/-- Diagnostic bound for a non-recursive parsing function: success prints
nothing, failure prints at most one line. -/
def prDiagOK (r : PR) : Prop :=
  (r.1 = true → r.2.2 = []) ∧ (r.1 = false → r.2.2.length ≤ 1)

/-- Diagnostic bound for a recursive parsing function: success and the
fall-off-the-end path print nothing, failure prints at most one line. -/
def poutDiagOK : POut → Prop
  | .res true _ d => d = []
  | .res false _ d => d.length ≤ 1
  | .undef d => d = []
  | .nofuel => True

theorem matchTok_true_nil {q : TQ} {e : TokenID} {l : String} {q1 : TQ} {d1 : List Diag}
    (h : matchTok q e l = (true, q1, d1)) : d1 = [] := by
  rcases matchTok_cases q e l with h2 | ⟨dg, h2⟩ <;> rw [h] at h2 <;>
    simp [Prod.mk.injEq] at h2
  exact h2.2

theorem matchTok_false_one {q : TQ} {e : TokenID} {l : String} {q1 : TQ} {d1 : List Diag}
    (h : matchTok q e l = (false, q1, d1)) : d1.length = 1 := by
  rcases matchTok_cases q e l with h2 | ⟨dg, h2⟩ <;> rw [h] at h2 <;>
    simp [Prod.mk.injEq] at h2
  rw [h2.2]
  rfl

theorem parser_expr_nil {q : TQ} {b : Bool} {q1 : TQ} {d : List Diag}
    (h : parser_expr q = (b, q1, d)) : d = [] := by
  obtain ⟨b2, h2⟩ := parser_expr_shape q
  rw [h] at h2
  simp [Prod.mk.injEq] at h2
  exact h2.2.2

theorem parser_function_call_diag (q : TQ) : prDiagOK (parser_function_call q) := by
  unfold parser_function_call
  rcases h1 : matchTok q .nuPy_IDENTIFIER "identifier" with ⟨b1, q1, d1⟩
  cases b1 with
  | false =>
    have hl := matchTok_false_one h1
    simp [prDiagOK, hl]
  | true =>
    have hn := matchTok_true_nil h1
    dsimp only
    rcases h2 : matchTok q1 .nuPy_LEFT_PAREN "(" with ⟨b2, q2, d2⟩
    cases b2 with
    | false =>
      have hl := matchTok_false_one h2
      simp [prDiagOK, hn, hl]
    | true =>
      have hn2 := matchTok_true_nil h2
      dsimp only
      rcases h3 : matchTok q2 .nuPy_RIGHT_PAREN ")" with ⟨b3, q3, d3⟩
      cases b3 with
      | false =>
        have hl := matchTok_false_one h3
        simp [prDiagOK, hn, hn2, hl]
      | true =>
        have hn3 := matchTok_true_nil h3
        simp [prDiagOK, hn, hn2, hn3]

theorem parser_value_diag (q : TQ) : prDiagOK (parser_value q) := by
  unfold parser_value
  dsimp only
  split
  · exact parser_function_call_diag q
  · obtain ⟨b, h⟩ := parser_expr_shape q
    rw [h]
    cases b <;> simp [prDiagOK]

theorem parser_assignment_diag (tokens : TQ) : prDiagOK (parser_assignment tokens) := by
  unfold parser_assignment
  dsimp only
  generalize (if (tokenqueue_peekToken tokens).id = TokenID.nuPy_ASTERISK then
      tokenqueue_dequeue tokens else tokens) = q0
  rcases h1 : matchTok q0 .nuPy_IDENTIFIER "identifier" with ⟨b1, q1, d1⟩
  cases b1 with
  | false =>
    have hl := matchTok_false_one h1
    simp [prDiagOK, hl]
  | true =>
    have hn := matchTok_true_nil h1
    dsimp only
    rcases h2 : matchTok q1 .nuPy_EQUAL "=" with ⟨b2, q2, d2⟩
    cases b2 with
    | false =>
      have hl := matchTok_false_one h2
      simp [prDiagOK, hn, hl]
    | true =>
      have hn2 := matchTok_true_nil h2
      dsimp only
      rcases h3 : parser_value q2 with ⟨b3, q3, d3⟩
      have hv := parser_value_diag q2
      rw [h3] at hv
      cases b3 with
      | false =>
        have hl := hv.2 rfl
        dsimp only at hl
        simp only [prDiagOK]
        constructor
        · intro hfalse; cases hfalse
        · intro _
          simp [hn, hn2]
          exact hl
      | true =>
        have hvn := hv.1 rfl
        dsimp only at hvn
        dsimp only
        rcases h4 : matchTok q3 .nuPy_EOLN "EOLN" with ⟨b4, q4, d4⟩
        cases b4 with
        | false =>
          have hl := matchTok_false_one h4
          simp [prDiagOK, hn, hn2, hvn, hl]
        | true =>
          have hn4 := matchTok_true_nil h4
          simp [prDiagOK, hn, hn2, hvn, hn4]

theorem parser_call_stmt_diag (q : TQ) : prDiagOK (parser_call_stmt q) := by
  unfold parser_call_stmt
  rcases h1 : parser_function_call q with ⟨b1, q1, d1⟩
  have hf := parser_function_call_diag q
  rw [h1] at hf
  cases b1 with
  | false =>
    have hl := hf.2 rfl
    dsimp only at hl
    simp only [prDiagOK]
    simp
    exact hl
  | true =>
    have hn := hf.1 rfl
    dsimp only at hn
    dsimp only
    rcases h2 : matchTok q1 .nuPy_EOLN "EOLN" with ⟨b2, q2, d2⟩
    cases b2 with
    | false =>
      have hl := matchTok_false_one h2
      simp [prDiagOK, hn, hl]
    | true =>
      have hn2 := matchTok_true_nil h2
      simp [prDiagOK, hn, hn2]

theorem parser_pass_stmt_diag (q : TQ) : prDiagOK (parser_pass_stmt q) := by
  unfold parser_pass_stmt
  rcases h1 : matchTok q .nuPy_KEYW_PASS "pass" with ⟨b1, q1, d1⟩
  cases b1 with
  | false =>
    have hl := matchTok_false_one h1
    simp [prDiagOK, hl]
  | true =>
    have hn := matchTok_true_nil h1
    dsimp only
    rcases h2 : matchTok q1 .nuPy_EOLN "EOLN" with ⟨b2, q2, d2⟩
    cases b2 with
    | false =>
      have hl := matchTok_false_one h2
      simp [prDiagOK, hn, hl]
    | true =>
      have hn2 := matchTok_true_nil h2
      simp [prDiagOK, hn, hn2]

theorem parser_empty_stmt_diag (q : TQ) : prDiagOK (parser_empty_stmt q) := by
  unfold parser_empty_stmt
  rcases matchTok_cases q .nuPy_EOLN "EOLN" with h | ⟨dg, h⟩ <;> rw [h] <;>
    simp [prDiagOK]

theorem parseRun_diag : ∀ (fuel : Nat) (rule : PRule) (q : TQ),
    poutDiagOK (parseRun fuel rule q) := by
  intro fuel
  induction fuel with
  | zero => intro rule q; simp [parseRun, poutDiagOK]
  | succ n ih =>
    intro rule q
    cases rule with
    | bodyR =>
      simp only [parseRun]
      rcases h1 : matchTok q .nuPy_LEFT_BRACE "\x7b" with ⟨b1, q1, d1⟩
      cases b1 with
      | false =>
        have hl := matchTok_false_one h1
        simp [poutDiagOK, hl]
      | true =>
        have hn1 := matchTok_true_nil h1
        dsimp only
        rcases h2 : matchTok q1 .nuPy_EOLN "EOLN" with ⟨b2, q2, d2⟩
        cases b2 with
        | false =>
          have hl := matchTok_false_one h2
          simp [poutDiagOK, hn1, hl]
        | true =>
          have hn2 := matchTok_true_nil h2
          dsimp only
          cases h3 : parseRun n PRule.stmtsR q2 with
          | nofuel => simp [poutDiagOK]
          | undef d3 =>
            have hs := ih PRule.stmtsR q2
            rw [h3] at hs
            simp only [poutDiagOK] at hs
            simp [poutDiagOK, hn1, hn2, hs]
          | res b3 q3 d3 =>
            have hs := ih PRule.stmtsR q2
            rw [h3] at hs
            cases b3 with
            | false =>
              simp only [poutDiagOK] at hs
              simp only [poutDiagOK, hn1, hn2]
              simpa using hs
            | true =>
              simp only [poutDiagOK] at hs
              dsimp only
              rcases h4 : matchTok q3 .nuPy_RIGHT_BRACE "\x7d" with ⟨b4, q4, d4⟩
              cases b4 with
              | false =>
                have hl := matchTok_false_one h4
                simp [poutDiagOK, hn1, hn2, hs, hl]
              | true =>
                have hn4 := matchTok_true_nil h4
                dsimp only
                rcases h5 : matchTok q4 .nuPy_EOLN "EOLN" with ⟨b5, q5, d5⟩
                cases b5 with
                | false =>
                  have hl := matchTok_false_one h5
                  simp [poutDiagOK, hn1, hn2, hs, hn4, hl]
                | true =>
                  have hn5 := matchTok_true_nil h5
                  simp [poutDiagOK, hn1, hn2, hs, hn4, hn5]
    | elseR =>
      simp only [parseRun]
      split
      · -- elif branch
        rcases h1 : parser_expr (tokenqueue_dequeue q) with ⟨b1, q1, d1⟩
        have hn1 := parser_expr_nil h1
        cases b1 with
        | false => simp [poutDiagOK, hn1]
        | true =>
          dsimp only
          rcases h2 : matchTok q1 .nuPy_COLON ":" with ⟨b2, q2, d2⟩
          cases b2 with
          | false =>
            have hl := matchTok_false_one h2
            simp [poutDiagOK, hn1, hl]
          | true =>
            have hn2 := matchTok_true_nil h2
            dsimp only
            rcases h3 : matchTok q2 .nuPy_EOLN "EOLN" with ⟨b3, q3, d3⟩
            cases b3 with
            | false =>
              have hl := matchTok_false_one h3
              simp [poutDiagOK, hn1, hn2, hl]
            | true =>
              have hn3 := matchTok_true_nil h3
              dsimp only
              cases h4 : parseRun n PRule.bodyR q3 with
              | nofuel => simp [poutDiagOK]
              | undef d4 =>
                have hs := ih PRule.bodyR q3
                rw [h4] at hs
                simp only [poutDiagOK] at hs
                simp [poutDiagOK, hn1, hn2, hn3, hs]
              | res b4 q4 d4 =>
                have hs := ih PRule.bodyR q3
                rw [h4] at hs
                cases b4 with
                | false =>
                  simp only [poutDiagOK] at hs
                  simp only [poutDiagOK, hn1, hn2, hn3]
                  simpa using hs
                | true =>
                  simp only [poutDiagOK] at hs
                  dsimp only
                  split
                  · cases h5 : parseRun n PRule.elseR q4 with
                    | nofuel => simp [poutDiagOK]
                    | undef d5 =>
                      have hs5 := ih PRule.elseR q4
                      rw [h5] at hs5
                      simp only [poutDiagOK] at hs5
                      simp [poutDiagOK, hn1, hn2, hn3, hs, hs5]
                    | res b5 q5 d5 =>
                      have hs5 := ih PRule.elseR q4
                      rw [h5] at hs5
                      cases b5 with
                      | false =>
                        simp only [poutDiagOK] at hs5
                        simp only [poutDiagOK, hn1, hn2, hn3, hs]
                        simpa using hs5
                      | true =>
                        simp only [poutDiagOK] at hs5
                        simp [poutDiagOK, hn1, hn2, hn3, hs, hs5]
                  · simp [poutDiagOK, hn1, hn2, hn3, hs]
      · split
        · -- else branch
          rcases h1 : matchTok (tokenqueue_dequeue q) .nuPy_COLON ":" with ⟨b1, q1, d1⟩
          cases b1 with
          | false =>
            have hl := matchTok_false_one h1
            simp [poutDiagOK, hl]
          | true =>
            have hn1 := matchTok_true_nil h1
            dsimp only
            rcases h2 : matchTok q1 .nuPy_EOLN "EOLN" with ⟨b2, q2, d2⟩
            cases b2 with
            | false =>
              have hl := matchTok_false_one h2
              simp [poutDiagOK, hn1, hl]
            | true =>
              have hn2 := matchTok_true_nil h2
              dsimp only
              cases h3 : parseRun n PRule.bodyR q2 with
              | nofuel => simp [poutDiagOK]
              | undef d3 =>
                have hs := ih PRule.bodyR q2
                rw [h3] at hs
                simp only [poutDiagOK] at hs
                simp [poutDiagOK, hn1, hn2, hs]
              | res b3 q3 d3 =>
                have hs := ih PRule.bodyR q2
                rw [h3] at hs
                cases b3 with
                | false =>
                  simp only [poutDiagOK] at hs
                  simp only [poutDiagOK, hn1, hn2]
                  simpa using hs
                | true =>
                  simp only [poutDiagOK] at hs
                  simp [poutDiagOK, hn1, hn2, hs]
        · -- error branch
          simp [poutDiagOK]
    | ifThenElseR =>
      simp only [parseRun]
      rcases h1 : matchTok q .nuPy_KEYW_IF "if" with ⟨b1, q1, d1⟩
      cases b1 with
      | false =>
        have hl := matchTok_false_one h1
        simp [poutDiagOK, hl]
      | true =>
        have hn1 := matchTok_true_nil h1
        dsimp only
        rcases h2 : parser_expr q1 with ⟨b2, q2, d2⟩
        have hn2 := parser_expr_nil h2
        cases b2 with
        | false => simp [poutDiagOK, hn1, hn2]
        | true =>
          dsimp only
          rcases h3 : matchTok q2 .nuPy_COLON ":" with ⟨b3, q3, d3⟩
          cases b3 with
          | false =>
            have hl := matchTok_false_one h3
            simp [poutDiagOK, hn1, hn2, hl]
          | true =>
            have hn3 := matchTok_true_nil h3
            dsimp only
            rcases h4 : matchTok q3 .nuPy_EOLN "EOLN" with ⟨b4, q4, d4⟩
            cases b4 with
            | false =>
              have hl := matchTok_false_one h4
              simp [poutDiagOK, hn1, hn2, hn3, hl]
            | true =>
              have hn4 := matchTok_true_nil h4
              dsimp only
              cases h5 : parseRun n PRule.bodyR q4 with
              | nofuel => simp [poutDiagOK]
              | undef d5 =>
                have hs := ih PRule.bodyR q4
                rw [h5] at hs
                simp only [poutDiagOK] at hs
                simp [poutDiagOK, hn1, hn2, hn3, hn4, hs]
              | res b5 q5 d5 =>
                have hs := ih PRule.bodyR q4
                rw [h5] at hs
                cases b5 with
                | false =>
                  simp only [poutDiagOK] at hs
                  simp only [poutDiagOK, hn1, hn2, hn3, hn4]
                  simpa using hs
                | true =>
                  simp only [poutDiagOK] at hs
                  dsimp only
                  split
                  · cases h6 : parseRun n PRule.elseR q5 with
                    | nofuel => simp [poutDiagOK]
                    | undef d6 =>
                      have hs6 := ih PRule.elseR q5
                      rw [h6] at hs6
                      simp only [poutDiagOK] at hs6
                      simp [poutDiagOK, hn1, hn2, hn3, hn4, hs, hs6]
                    | res b6 q6 d6 =>
                      have hs6 := ih PRule.elseR q5
                      rw [h6] at hs6
                      cases b6 with
                      | false =>
                        simp only [poutDiagOK] at hs6
                        simp only [poutDiagOK, hn1, hn2, hn3, hn4, hs]
                        simpa using hs6
                      | true =>
                        simp only [poutDiagOK] at hs6
                        simp [poutDiagOK, hn1, hn2, hn3, hn4, hs, hs6]
                  · simp [poutDiagOK, hn1, hn2, hn3, hn4, hs]
    | whileR =>
      simp only [parseRun]
      rcases h1 : matchTok q .nuPy_KEYW_WHILE "while" with ⟨b1, q1, d1⟩
      cases b1 with
      | false =>
        have hl := matchTok_false_one h1
        simp [poutDiagOK, hl]
      | true =>
        have hn1 := matchTok_true_nil h1
        dsimp only
        rcases h2 : parser_expr q1 with ⟨b2, q2, d2⟩
        have hn2 := parser_expr_nil h2
        cases b2 with
        | false => simp [poutDiagOK, hn1, hn2]
        | true =>
          dsimp only
          rcases h3 : matchTok q2 .nuPy_COLON ":" with ⟨b3, q3, d3⟩
          cases b3 with
          | false =>
            have hl := matchTok_false_one h3
            simp [poutDiagOK, hn1, hn2, hl]
          | true =>
            have hn3 := matchTok_true_nil h3
            dsimp only
            rcases h4 : matchTok q3 .nuPy_EOLN "EOLN" with ⟨b4, q4, d4⟩
            cases b4 with
            | false =>
              have hl := matchTok_false_one h4
              simp [poutDiagOK, hn1, hn2, hn3, hl]
            | true =>
              have hn4 := matchTok_true_nil h4
              dsimp only
              cases h5 : parseRun n PRule.bodyR q4 with
              | nofuel => simp [poutDiagOK]
              | undef d5 =>
                have hs := ih PRule.bodyR q4
                rw [h5] at hs
                simp only [poutDiagOK] at hs
                simp [poutDiagOK, hn1, hn2, hn3, hn4, hs]
              | res b5 q5 d5 =>
                have hs := ih PRule.bodyR q4
                rw [h5] at hs
                cases b5 with
                | false =>
                  simp only [poutDiagOK] at hs
                  simp only [poutDiagOK, hn1, hn2, hn3, hn4]
                  simpa using hs
                | true =>
                  simp only [poutDiagOK] at hs
                  simp [poutDiagOK, hn1, hn2, hn3, hn4, hs]
    | stmtR =>
      simp only [parseRun]
      split
      · simp [poutDiagOK]
      · split
        · rcases h1 : parser_assignment q with ⟨b1, q1, d1⟩
          have hp := parser_assignment_diag q
          rw [h1] at hp
          cases b1 with
          | false =>
            have hl := hp.2 rfl
            dsimp only at hl
            simp only [poutDiagOK]
            simpa using hl
          | true =>
            have hn := hp.1 rfl
            dsimp only at hn
            simp [poutDiagOK, hn]
        · split
          · split
            · rcases h1 : parser_call_stmt q with ⟨b1, q1, d1⟩
              have hp := parser_call_stmt_diag q
              rw [h1] at hp
              cases b1 with
              | false =>
                have hl := hp.2 rfl
                dsimp only at hl
                simp only [poutDiagOK]
                simpa using hl
              | true =>
                have hn := hp.1 rfl
                dsimp only at hn
                simp [poutDiagOK, hn]
            · split
              · rcases h1 : parser_assignment q with ⟨b1, q1, d1⟩
                have hp := parser_assignment_diag q
                rw [h1] at hp
                cases b1 with
                | false =>
                  have hl := hp.2 rfl
                  dsimp only at hl
                  simp only [poutDiagOK]
                  simpa using hl
                | true =>
                  have hn := hp.1 rfl
                  dsimp only at hn
                  simp [poutDiagOK, hn]
              · simp [poutDiagOK]
          · split
            · exact ih PRule.ifThenElseR q
            · split
              · exact ih PRule.whileR q
              · split
                · rcases h1 : parser_pass_stmt q with ⟨b1, q1, d1⟩
                  have hp := parser_pass_stmt_diag q
                  rw [h1] at hp
                  cases b1 with
                  | false =>
                    have hl := hp.2 rfl
                    dsimp only at hl
                    simp only [poutDiagOK]
                    simpa using hl
                  | true =>
                    have hn := hp.1 rfl
                    dsimp only at hn
                    simp [poutDiagOK, hn]
                · split
                  · rcases h1 : parser_empty_stmt q with ⟨b1, q1, d1⟩
                    have hp := parser_empty_stmt_diag q
                    rw [h1] at hp
                    cases b1 with
                    | false =>
                      have hl := hp.2 rfl
                      dsimp only at hl
                      simp only [poutDiagOK]
                      simpa using hl
                    | true =>
                      have hn := hp.1 rfl
                      dsimp only at hn
                      simp [poutDiagOK, hn]
                  · simp [poutDiagOK]
    | stmtsR =>
      simp only [parseRun]
      cases h1 : parseRun n PRule.stmtR q with
      | nofuel => simp [poutDiagOK]
      | undef d1 =>
        have hs := ih PRule.stmtR q
        rw [h1] at hs
        simp only [poutDiagOK] at hs
        simp [poutDiagOK, hs]
      | res b1 q1 d1 =>
        have hs := ih PRule.stmtR q
        rw [h1] at hs
        cases b1 with
        | false =>
          simp only [poutDiagOK] at hs
          simp only [poutDiagOK]
          simpa using hs
        | true =>
          simp only [poutDiagOK] at hs
          dsimp only
          split
          · cases h2 : parseRun n PRule.stmtsR q1 with
            | nofuel => simp [poutDiagOK]
            | undef d2 =>
              have hs2 := ih PRule.stmtsR q1
              rw [h2] at hs2
              simp only [poutDiagOK] at hs2
              simp [poutDiagOK, hs, hs2]
            | res b2 q2 d2 =>
              have hs2 := ih PRule.stmtsR q1
              rw [h2] at hs2
              cases b2 with
              | false =>
                simp only [poutDiagOK] at hs2
                simp only [poutDiagOK, hs]
                simpa using hs2
              | true =>
                simp only [poutDiagOK] at hs2
                simp [poutDiagOK, hs, hs2]
          · simp [poutDiagOK, hs]

theorem parser_program_diag (fuel : Nat) (q : TQ) : poutDiagOK (parser_program fuel q) := by
  unfold parser_program parser_stmts
  cases h1 : parseRun fuel PRule.stmtsR q with
  | nofuel => simp [poutDiagOK]
  | undef d1 =>
    have hs := parseRun_diag fuel PRule.stmtsR q
    rw [h1] at hs
    exact hs
  | res b1 q1 d1 =>
    have hs := parseRun_diag fuel PRule.stmtsR q
    rw [h1] at hs
    cases b1 with
    | false => exact hs
    | true =>
      simp only [poutDiagOK] at hs
      dsimp only
      rcases h2 : matchTok q1 .nuPy_EOS "$" with ⟨b2, q2, d2⟩
      cases b2 with
      | false =>
        have hl := matchTok_false_one h2
        simp [poutDiagOK, hs, hl]
      | true =>
        have hn := matchTok_true_nil h2
        simp [poutDiagOK, hs, hn]

/-- C2 (amended): on every input on which parser_parse returns the failure
signal, at most one diagnostic line has been printed — the first failing
grammar rule propagates failure up the call chain with no additional message
per propagation level — but not exactly one: a parse that fails inside the
silent expression rules (see c2_zero_diag_failure) emits zero diagnostics. -/
theorem c2_failure_diag_bound (input : String) (d : List Diag)
    (h : parser_parse input = .failure d) : d.length ≤ 1 := by
  unfold parser_parse at h
  dsimp only at h
  have hp := parser_program_diag (parserFuel (tokenize input)) (tokenize input)
  cases hres : parser_program (parserFuel (tokenize input)) (tokenize input) with
  | nofuel => rw [hres] at h; cases h
  | undef d1 => rw [hres] at h; cases h
  | res b q1 d1 =>
    rw [hres] at h hp
    cases b with
    | true => cases h
    | false =>
      injection h with h2
      subst h2
      simpa only [poutDiagOK] using hp

/-- C2 witness: c2_failure_diag_bound applied to the concrete failing input
"pass\n", whose single diagnostic is "expecting EOLN, found '$'". -/
theorem c2_failure_diag_bound_witness :
    ([Diag.synErr 2 1 "EOLN" "$"] : List Diag).length ≤ 1 :=
  c2_failure_diag_bound "pass\n" [Diag.synErr 2 1 "EOLN" "$"] (by decide)
